import Mathlib

/-!
Verification of the hypercraft hypervisor core against its specification.

The development shallowly embeds the two source files of the repository:

* `src/arch/x86_64/vmx/vcpu.rs` — the VMX vCPU: pending-event injection,
  launch/resume discrimination, CPUID and XSETBV emulation, and the
  built-in vm-exit dispatch of `VmxVcpu::run`.
* `src/arch/riscv/vm.rs` — the RISC-V VM driver loop: SBI call handling
  (GetChar / SetTimer / Base / PMU / RemoteFence), the PLIC MMIO page-fault
  decoder, and the shared `VMState` snapshot.

Machine integers are modelled as `Nat` with explicit `% 2^w` at the points
where the Rust code truncates (`as u32`, `get_bits(0..32)`, ...).  Calls into
hardware, firmware or crates outside the repository (host `cpuid`, the
`riscv_decode` crate, `sbi_rt`, guest-memory instruction fetch) are
parameters of the embedded functions, quantified in the theorems.
-/

/-- Error type of the crate (`HyperError`); only the variants reachable from
the embedded code are listed. -/
inductive HyperError where
  | InvalidParam
  | NotSupported
  | DecodeError
  | InvalidInstruction
  | PageFault
  deriving DecidableEq, Repr

/-- Result type of the crate (`HyperResult<T> = Result<T, HyperError>`). -/
inductive HyperResult (α : Type) where
  | ok (a : α)
  | err (e : HyperError)
  deriving DecidableEq, Repr

/-! ## x86-64 VMX vCPU (`src/arch/x86_64/vmx/vcpu.rs`) -/

/-- Guest general-purpose register file (`GeneralRegisters`): RAX…R15 minus
RSP, each a `u64`.  The RSP slot of the Rust layout holds `host_stack_top`
and is not guest state, so it is not part of this model. -/
structure GeneralRegisters where
  rax : Nat := 0
  rbx : Nat := 0
  rcx : Nat := 0
  rdx : Nat := 0
  rsi : Nat := 0
  rdi : Nat := 0
  rbp : Nat := 0
  r8 : Nat := 0
  r9 : Nat := 0
  r10 : Nat := 0
  r11 : Nat := 0
  r12 : Nat := 0
  r13 : Nat := 0
  r14 : Nat := 0
  r15 : Nat := 0
  deriving DecidableEq, Repr

/-- Result of one `cpuid` invocation (`raw_cpuid::CpuIdResult`), four `u32`s. -/
structure CpuIdResult where
  eax : Nat
  ebx : Nat
  ecx : Nat
  edx : Nat
  deriving DecidableEq, Repr

/-- The VMX vCPU (`VmxVcpu`) together with the VMCS fields its embedded
operations read and write.  `pending_events` is the `VecDeque<(u8, Option<u32>)>`
(front = head of the list); `rip`, `rflags`, `interruptibility_state` and
`interrupt_window_exiting` stand for `VmcsGuestNW::RIP`, `VmcsGuestNW::RFLAGS`,
`VmcsGuest32::INTERRUPTIBILITY_STATE` and the `INTERRUPT_WINDOW_EXITING` bit of
`VmcsControl32::PRIMARY_PROCBASED_EXEC_CONTROLS`.  `guest_xcr0`/`guest_xss`/
`host_xcr0`/`host_xss` are the four words of `XState`. -/
structure VmxVcpu where
  guest_regs : GeneralRegisters
  vcpu_id : Nat
  launched : Bool
  pending_events : List (Nat × Option Nat)
  host_xcr0 : Nat
  guest_xcr0 : Nat
  host_xss : Nat
  guest_xss : Nat
  rip : Nat
  rflags : Nat
  interruptibility_state : Nat
  interrupt_window_exiting : Bool
  deriving DecidableEq, Repr

/-- `VmxVcpu::new` followed by `setup_vmcs_guest` / `setup_vmcs_control`:
fresh register file, `launched = false`, empty pending-event queue, guest
extended state initialised from the host's (`XState::new`), `RIP = entry`,
`RFLAGS = 0x2`, zero interruptibility state, interrupt-window exiting off. -/
def VmxVcpu.new (vcpu_id entry host_xcr0 host_xss : Nat) : VmxVcpu where
  guest_regs := {}
  vcpu_id := vcpu_id
  launched := false
  pending_events := []
  host_xcr0 := host_xcr0
  guest_xcr0 := host_xcr0
  host_xss := host_xss
  guest_xss := host_xss
  rip := entry
  rflags := 0x2
  interruptibility_state := 0
  interrupt_window_exiting := false

/-- `VmxVcpu::queue_event`: push one `(vector, err_code)` pair to the back of
the pending-events queue. -/
def VmxVcpu.queue_event (v : VmxVcpu) (vector : Nat) (err_code : Option Nat) : VmxVcpu :=
  { v with pending_events := v.pending_events ++ [(vector, err_code)] }

/-- `VmxVcpu::set_interrupt_window`: toggle the `INTERRUPT_WINDOW_EXITING` bit
of the primary processor-based execution controls. -/
def VmxVcpu.set_interrupt_window (v : VmxVcpu) (enable : Bool) : VmxVcpu :=
  { v with interrupt_window_exiting := enable }

/-- `VmxVcpu::allow_interrupt`: guest interrupts are deliverable when
`RFLAGS.IF` (bit 9, mask `0x200`) is set and the interruptibility state is
zero. -/
def VmxVcpu.allow_interrupt (v : VmxVcpu) : Bool :=
  (v.rflags &&& 0x200 != 0) && (v.interruptibility_state == 0)

/-- Outcome of `inject_pending_events`: the updated vCPU, and the event (if
any) written by `vmcs::inject_event` into the VM-entry interruption-info
field, to be delivered at the next entry. -/
structure InjectOut where
  vcpu : VmxVcpu
  injected : Option (Nat × Option Nat)
  deriving DecidableEq, Repr

/-- `VmxVcpu::inject_pending_events`: look at the front of the queue; an
exception (vector < 32), or any event while `allow_interrupt` holds, is
injected and popped; otherwise the queue is left alone and interrupt-window
exiting is enabled.  The Rust function returns `HyperResult<()>`; the only
failure sources are VMCS field writes, which the model treats as total, so no
error case appears here. -/
def VmxVcpu.inject_pending_events (v : VmxVcpu) : InjectOut :=
  match v.pending_events with
  | [] => ⟨v, none⟩
  | event :: rest =>
    if event.1 < 32 || v.allow_interrupt then
      ⟨{ v with pending_events := rest }, some event⟩
    else
      ⟨v.set_interrupt_window true, none⟩

/-- Which hardware entry instruction a call to `run` issues. -/
inductive EnterInstr where
  | launch
  | resume
  deriving DecidableEq, Repr

/-- Outcome of the pre-entry phase of `VmxVcpu::run`. -/
structure EnterOut where
  vcpu : VmxVcpu
  injected : Option (Nat × Option Nat)
  instr : EnterInstr
  deriving DecidableEq, Repr

/-- Pre-entry phase of `VmxVcpu::run` (lines 102–119): pending events are
injected only when `launched` is already true; then the guest is entered with
`vmx_resume` if `launched`, else `launched` is set and `vmx_launch` is used. -/
def VmxVcpu.run_enter (v : VmxVcpu) : EnterOut :=
  let step := if v.launched then v.inject_pending_events else ⟨v, none⟩
  let v1 := step.vcpu
  if v1.launched then
    ⟨v1, step.injected, EnterInstr.resume⟩
  else
    ⟨{ v1 with launched := true }, step.injected, EnterInstr.launch⟩

/-- The vCPU state after `n` calls to `run` (each call modelled by its
pre-entry phase; the guest itself is a stub that re-exits untouched). -/
def VmxVcpu.run_calls (v : VmxVcpu) : Nat → VmxVcpu
  | 0 => v
  | n + 1 => (v.run_enter.vcpu).run_calls n

/-- The sequence of events injected by `n` successive calls to `run`,
head = the injection performed by the first of those calls. -/
def VmxVcpu.inj_trace (v : VmxVcpu) : Nat → List (Option (Nat × Option Nat))
  | 0 => []
  | n + 1 => v.run_enter.injected :: (v.run_enter.vcpu).inj_trace n

/-- The entry instruction used by the `n`-th call to `run` (0-based). -/
def VmxVcpu.enter_instr_at (v : VmxVcpu) (n : Nat) : EnterInstr :=
  (v.run_calls n).run_enter.instr

/-- ASCII bytes of the vendor string `"RVMRVMRVMRVM"` (`VENDOR_STR`). -/
def VENDOR_STR : List Nat := "RVMRVMRVMRVM".data.map Char.toNat

/-- The `i`-th little-endian 32-bit word of `VENDOR_STR`, as produced by the
reinterpretation `&*(VENDOR_STR.as_ptr() as *const [u32; 3])` on the
little-endian x86 target. -/
def vendor_word (i : Nat) : Nat :=
  VENDOR_STR.getD (4 * i) 0
    + 2 ^ 8 * VENDOR_STR.getD (4 * i + 1) 0
    + 2 ^ 16 * VENDOR_STR.getD (4 * i + 2) 0
    + 2 ^ 24 * VENDOR_STR.getD (4 * i + 3) 0

/-- One invocation of the `cpuid!` macro: the host instruction takes the low
32 bits of the supplied leaf/sub-leaf and yields four `u32`s.  `host` is the
otherwise unconstrained behaviour of the physical CPU. -/
def cpuid_call (host : Nat → Nat → CpuIdResult) (a c : Nat) : CpuIdResult :=
  let r := host (a % 2 ^ 32) (c % 2 ^ 32)
  ⟨r.eax % 2 ^ 32, r.ebx % 2 ^ 32, r.ecx % 2 ^ 32, r.edx % 2 ^ 32⟩

/-- `VmxVcpu::handle_cpuid`: emulate the CPUID leaves as the source does —
leaf 1 clears ECX bit 5 (`FEATURE_VMX`, mask `!0x20 = 0xffff_ffdf`) and sets
ECX bit 31 (`FEATURE_HYPERVISOR`, `0x8000_0000`); leaf 7 sub-leaf 0 clears
ECX bit 5 (waitpkg); leaf 0xd is forwarded (with guest extended state loaded,
an effect on `host` outside this pure model); leaf `0x4000_0000` returns the
vendor words and EAX = `0x4000_0001`; leaf `0x4000_0001` returns zeros; any
other leaf is passed through.  The result lands in RAX/RBX/RCX/RDX and RIP
advances by `VM_EXIT_INSTR_LEN_CPUID = 2`. -/
def VmxVcpu.handle_cpuid (host : Nat → Nat → CpuIdResult) (v : VmxVcpu) : VmxVcpu :=
  let function := v.guest_regs.rax % 2 ^ 32
  let res :=
    if function = 0x1 then
      let r := cpuid_call host v.guest_regs.rax v.guest_regs.rcx
      { r with ecx := (r.ecx &&& 0xffffffdf) ||| 0x80000000 }
    else if function = 0x7 then
      let r := cpuid_call host v.guest_regs.rax v.guest_regs.rcx
      if v.guest_regs.rcx = 0 then { r with ecx := r.ecx &&& 0xffffffdf } else r
    else if function = 0xd then
      cpuid_call host v.guest_regs.rax v.guest_regs.rcx
    else if function = 0x40000000 then
      ⟨0x40000001, vendor_word 0, vendor_word 1, vendor_word 2⟩
    else if function = 0x40000001 then
      ⟨0, 0, 0, 0⟩
    else
      cpuid_call host v.guest_regs.rax v.guest_regs.rcx
  { v with
    guest_regs := { v.guest_regs with
      rax := res.eax, rbx := res.ebx, rcx := res.ecx, rdx := res.edx }
    rip := v.rip + 2 }

/-- Bits of `x86::controlregs::Xcr0` recognised by `Xcr0::from_bits`:
FPU/MMX (0), SSE (1), AVX (2), BNDREG (3), BNDCSR (4), OPMASK (5),
ZMM_HI256 (6), HI16_ZMM (7) and PKRU (9) — the mask `0x2ff`. -/
def XCR0_KNOWN_BITS : Nat := 0x2ff

/-- The closure of the four validation checks of `handle_xsetbv` over an
already-recognised `Xcr0` value: FPU/MMX (bit 0) must be set; AVX (bit 2)
requires SSE (bit 1); BNDCSR (bit 4) and BNDREG (bit 3) must be equal; any of
OPMASK/ZMM_HI256/HI16_ZMM (bits 5, 6, 7) set requires all of AVX, OPMASK,
ZMM_HI256 and HI16_ZMM set. -/
def xcr0_rules_ok (x : Nat) : Bool :=
  x.testBit 0
    && !(x.testBit 2 && !x.testBit 1)
    && (x.testBit 4 == x.testBit 3)
    && !((x.testBit 5 || x.testBit 6 || x.testBit 7)
          && !(x.testBit 2 && x.testBit 5 && x.testBit 6 && x.testBit 7))

/-- `VmxVcpu::handle_xsetbv`: the XCR index is `RCX` bits 0..32 and the value
is `RDX` bits 0..32 shifted into the high half over `RAX` bits 0..32.  Index 0:
`Xcr0::from_bits` rejects any value with a bit outside `XCR0_KNOWN_BITS`, then
the four rule checks run; failure of either yields `InvalidParam` with the
vCPU untouched, success stores the value in `guest_xcr0` and advances RIP by
`VM_EXIT_INSTR_LEN_XSETBV = 3`.  A nonzero index yields `NotSupported`. -/
def VmxVcpu.handle_xsetbv (v : VmxVcpu) : VmxVcpu × HyperResult Unit :=
  let index := v.guest_regs.rcx % 2 ^ 32
  let value := ((v.guest_regs.rdx % 2 ^ 32) <<< 32) ||| (v.guest_regs.rax % 2 ^ 32)
  if index = 0 then
    if value &&& (2 ^ 64 - 1 - XCR0_KNOWN_BITS) = 0 && xcr0_rules_ok value then
      ({ v with guest_xcr0 := value, rip := v.rip + 3 }, HyperResult.ok ())
    else
      (v, HyperResult.err HyperError.InvalidParam)
  else
    (v, HyperResult.err HyperError.NotSupported)

/-- VM-exit reasons distinguished by `builtin_vmexit_handler`. -/
inductive VmxExitReason where
  | INTERRUPT_WINDOW
  | XSETBV
  | CR_ACCESS
  | EXCEPTION_NMI
  | CPUID
  | unhandled
  deriving DecidableEq, Repr

/-- The part of `vmcs::exit_info` that the dispatch inspects. -/
structure VmxExitInfo where
  exit_reason : VmxExitReason
  entry_failure : Bool
  deriving DecidableEq, Repr

/-- Outcome of the exit-dispatch tail of `VmxVcpu::run` (lines 131–141):
`surfaced = true` models `run` returning `Some(exit_info)` to the VMM,
`panicked = true` models the `panic!` taken when a built-in handler errs,
when `entry_failure` is set, or on a `CR_ACCESS` exit. -/
structure DispatchOut where
  vcpu : VmxVcpu
  surfaced : Bool
  panicked : Bool
  deriving DecidableEq, Repr

/-- `builtin_vmexit_handler` composed with the `match` at the end of
`VmxVcpu::run`: interrupt-window exits turn the window off; XSETBV and CPUID
run their handlers, and an error from a handler panics the hypervisor;
CR accesses and entry failures panic; EXCEPTION_NMI re-queues the faulting
vector (`int_vector`, read from the VMCS interruption info) and reports
handled; every other reason is surfaced to the VMM. -/
def VmxVcpu.run_dispatch (host : Nat → Nat → CpuIdResult) (int_vector : Nat)
    (v : VmxVcpu) (info : VmxExitInfo) : DispatchOut :=
  if info.entry_failure then
    ⟨v, false, true⟩
  else
    match info.exit_reason with
    | VmxExitReason.INTERRUPT_WINDOW => ⟨v.set_interrupt_window false, false, false⟩
    | VmxExitReason.XSETBV =>
      let r := v.handle_xsetbv
      match r.2 with
      | HyperResult.ok _ => ⟨r.1, false, false⟩
      | HyperResult.err _ => ⟨r.1, false, true⟩
    | VmxExitReason.CR_ACCESS => ⟨v, false, true⟩
    | VmxExitReason.EXCEPTION_NMI => ⟨v.queue_event int_vector none, false, false⟩
    | VmxExitReason.CPUID => ⟨v.handle_cpuid host, false, false⟩
    | VmxExitReason.unhandled => ⟨v, true, false⟩

/-! ## RISC-V VM driver (`src/arch/riscv/vm.rs`) -/

/-- Value of `usize::MAX` on the 64-bit RISC-V target. -/
def USIZE_MAX : Nat := 2 ^ 64 - 1

/-- General-purpose register file of the guest (`GeneralPurposeRegisters`), a
fixed array indexed by `GprIndex` x0…x31, modelled as a total map;
`GprIndex::A0 = 10`, `GprIndex::A1 = 11`. -/
def Gprs : Type := Nat → Nat

/-- `GeneralPurposeRegisters::reg`. -/
def Gprs.reg (g : Gprs) (i : Nat) : Nat := g i

/-- `GeneralPurposeRegisters::set_reg`. -/
def Gprs.set_reg (g : Gprs) (i : Nat) (val : Nat) : Gprs :=
  fun j => if j = i then val else g j

/-- Firmware SBI return pair (`sbi_rt::SbiRet`). -/
structure SbiRet where
  error : Nat
  value : Nat
  deriving DecidableEq, Repr

/-- SBI base-extension functions (`BaseFunction`, crate `sbi.rs`), as matched
by `handle_base_function`; the source's spelling is kept. -/
inductive BaseFunction where
  | GetSepcificationVersion
  | GetImplementationID
  | GetImplementationVersion
  | ProbeSbiExtension (extension : Nat)
  | GetMachineVendorID
  | GetMachineArchitectureID
  | GetMachineImplementationID
  deriving DecidableEq, Repr

/-- SBI PMU functions matched by `handle_pmu_function`. -/
inductive PmuFunction where
  | GetNumCounters
  | GetCounterInfo (counter_index : Nat)
  | StopCounter (counter_index counter_mask stop_flags : Nat)
  deriving DecidableEq, Repr

/-- SBI remote-fence functions matched by `handle_rfnc_function`. -/
inductive RemoteFenceFunction where
  | FenceI (hart_mask hart_mask_base : Nat)
  | RemoteSFenceVMA (hart_mask hart_mask_base start_addr size : Nat)
  deriving DecidableEq, Repr

/-- Decoded SBI hypercall message (`HyperCallMsg`); `otherMsg` stands for the
variants of the crate's enum that `VM::run` sends to `todo!()`. -/
inductive HyperCallMsg where
  | Base (b : BaseFunction)
  | GetChar
  | PutChar (c : Nat)
  | SetTimer (timer : Nat)
  | Reset (reason : Nat)
  | RemoteFence (rfnc : RemoteFenceFunction)
  | PMU (pmu : PmuFunction)
  | otherMsg
  deriving DecidableEq, Repr

/-- Privilege level at which a guest page fault occurred. -/
inductive PrivilegeLevel where
  | Supervisor
  | User
  deriving DecidableEq, Repr

/-- Exit classification returned by `vcpu.run()` (`VmExitInfo`); the source's
spelling `falut_pc` is kept. -/
inductive VmExitInfo where
  | Ecall (sbi_msg : Option HyperCallMsg)
  | PageFault (fault_addr falut_pc inst : Nat) (priv_level : PrivilegeLevel)
  | TimerInterruptEmulation
  | ExternalInterruptEmulation
  | otherExit
  deriving DecidableEq, Repr

/-- Typed trap surfaced from `VM::run` to the VMM (`VmmTrap`). -/
inductive VmmTrap where
  | SetTimer (timer : Nat)
  | TimerInterruptEmulation
  deriving DecidableEq, Repr

/-- Result of `riscv_decode::decode` as consumed by `handle_plic`: only the
`Sw`/`Lw` shapes matter, and of those only `rs2()` resp. `rd()` are read
(5-bit fields, hence `Fin 32`, which is also why `GprIndex::from_raw(..)
.unwrap()` cannot panic).  `otherInst` covers every other successfully decoded
instruction. -/
inductive DecodedInst where
  | Sw (rs2 : Fin 32)
  | Lw (rd : Fin 32)
  | otherInst
  deriving DecidableEq, Repr

/-- Everything outside this repository that `VM::run` and its handlers call
into, bundled as unconstrained parameters: the guest-memory instruction fetch
(`vm_pages.fetch_guest_instruction`), the `riscv_decode::decode` crate
function (`none` = `Err(DecodingError)`), the firmware SBI entry points used
by the Base/PMU/RemoteFence handlers, and the value a volatile read of the
physical PLIC claim/complete register returns in `handle_irq`. -/
structure ExtCalls where
  fetch : Nat → HyperResult Nat
  decode : Nat → Option DecodedInst
  spec_version_major : Nat
  spec_version_minor : Nat
  sbi_impl_id : Nat
  sbi_impl_version : Nat
  probe_extension : Nat → Nat
  mvendorid : Nat
  marchid : Nat
  mimpid : Nat
  pmu_num_counters : Nat
  pmu_counter_get_info : Nat → SbiRet
  pmu_counter_stop : Nat → Nat → Nat → SbiRet
  remote_fence_i : Nat → Nat → SbiRet
  remote_sfence_vma : Nat → Nat → Nat → Nat → SbiRet
  hw_claim : Nat

/-- The VM (`struct VM` with its inlined `VMState` snapshot).  `plic_mem` is
the PLIC register file. Modelled from the spec: `PlicState` lives in
`arch/riscv/devices/plic.rs`, which is not part of the two given source
files; the spec describes it as "a register-file model of the
Platform-Level Interrupt Controller sized to one 64 MiB MMIO window", so it
is embedded as a plain 32-bit register file keyed by guest-physical address,
plus the `claim_complete` per-context array used by `handle_irq`.  `vcpu_pc`
is likewise modelled from the spec: the vCPU's program counter (`sepc`),
which `restore_state` bumps by `instruction_length` when `advance_pc` is
set.  `hvip_vseip` is the VSEIP bit `handle_irq` sets in `hvip`. -/
structure VM where
  gprs : Gprs
  advance_pc : Bool
  instruction_length : Nat
  timer : Nat
  input_buffer : List Nat
  plic_base : Nat
  plic_mem : Nat → Nat
  plic_claim_complete : List Nat
  vcpu_pc : Nat
  hvip_vseip : Bool

/-- `VM::new` (plus `init_vcpu` seeding the entry PC): default register
snapshot, `advance_pc = false`, `instruction_length = 4`, PLIC based at
`0xC000000` with cleared registers, `timer = u64::MAX`, empty input
buffer. -/
def VM.new (entry_pc : Nat) : VM where
  gprs := fun _ => 0
  advance_pc := false
  instruction_length := 4
  timer := 2 ^ 64 - 1
  input_buffer := []
  plic_base := 0xC000000
  plic_mem := fun _ => 0
  plic_claim_complete := List.replicate 2 0
  vcpu_pc := entry_pc
  hvip_vseip := false

/-- `VM::add_char_to_input_buffer`: push one byte at the back. -/
def VM.add_char_to_input_buffer (vm : VM) (c : Nat) : VM :=
  { vm with input_buffer := vm.input_buffer ++ [c] }

/-- `VM::read_from_input_buffer`: pop the front byte, or `usize::MAX` when
the buffer is empty. -/
def VM.read_from_input_buffer (vm : VM) : VM × Nat :=
  match vm.input_buffer with
  | c :: rest => ({ vm with input_buffer := rest }, c)
  | [] => (vm, USIZE_MAX)

/-- `VM::get_timer`. -/
def VM.get_timer (vm : VM) : Nat := vm.timer

/-- `VM::set_timer`. -/
def VM.set_timer (vm : VM) (timer : Nat) : VM := { vm with timer := timer }

/-- Function `riscv_decode::instruction_length` (named `rvdec_instruction_length` here
since `instruction_length` is a `VMState` field) applied to the low 16 bits of the
trapping instruction: 2 bytes unless bits [1:0] are `11`; 4 bytes unless
bits [4:2] are also `111`; longer encodings otherwise (their exact length is
irrelevant here — `handle_plic` treats any length other than 2 or 4 as
unreachable). -/
def rvdec_instruction_length (i : Nat) : Nat :=
  if i &&& 0b11 ≠ 0b11 then 2
  else if i &&& 0b11100 ≠ 0b11100 then 4
  else if i &&& 0b111111 = 0b011111 then 6
  else 8

/-- Outcome of `handle_plic` / `handle_page_fault`: updated VM and
`HyperResult<usize>`; `panicked` marks the `unreachable!()` arm taken for an
instruction-length prefix other than 2 or 4. -/
structure PlicOut where
  vm : VM
  res : HyperResult Nat
  panicked : Bool

/-- `VM::handle_plic`: when the trap instruction `inst` is 0 (no `hinst`
information) it is fetched from guest memory at `inst_addr`; its 16-bit
prefix selects compressed (2-byte, decoded from the low half) or full-width
(4-byte) decoding; a decoded `Sw` stores the low 32 bits of `rs2` into the
PLIC register at `fault_addr`, a decoded `Lw` loads that register into `rd`,
any other decoded instruction is `InvalidInstruction`, and a failed decode is
`DecodeError`.  On success the instruction length is returned. -/
def VM.handle_plic (ext : ExtCalls) (vm : VM) (inst_addr inst0 fault_addr : Nat) : PlicOut :=
  let fetched := if inst0 = 0 then ext.fetch inst_addr else HyperResult.ok inst0
  match fetched with
  | HyperResult.err e => ⟨vm, HyperResult.err e, false⟩
  | HyperResult.ok inst =>
    let i1 := inst % 2 ^ 16
    let len := rvdec_instruction_length i1
    if len = 2 ∨ len = 4 then
      let inst2 := if len = 2 then i1 else inst
      match ext.decode inst2 with
      | none => ⟨vm, HyperResult.err HyperError.DecodeError, false⟩
      | some (DecodedInst.Sw rs2) =>
        let val := vm.gprs.reg rs2.val % 2 ^ 32
        ⟨{ vm with plic_mem := fun a => if a = fault_addr then val else vm.plic_mem a },
          HyperResult.ok len, false⟩
      | some (DecodedInst.Lw rd) =>
        let val := vm.plic_mem fault_addr
        ⟨{ vm with gprs := vm.gprs.set_reg rd.val val }, HyperResult.ok len, false⟩
      | some DecodedInst.otherInst =>
        ⟨vm, HyperResult.err HyperError.InvalidInstruction, false⟩
    else
      ⟨vm, HyperResult.err HyperError.InvalidInstruction, true⟩

/-- `VM::handle_page_fault`: faults inside the 64 MiB window
`[plic.base, plic.base + 0x4000000)` go to `handle_plic`; anything else is
`HyperError::PageFault`. -/
def VM.handle_page_fault (ext : ExtCalls) (vm : VM) (inst_addr inst fault_addr : Nat) : PlicOut :=
  if vm.plic_base ≤ fault_addr ∧ fault_addr < vm.plic_base + 0x4000000 then
    vm.handle_plic ext inst_addr inst fault_addr
  else
    ⟨vm, HyperResult.err HyperError.PageFault, false⟩

/-- `VM::handle_base_function`: place the firmware's answer in A1, then set
A0 to 0. -/
def VM.handle_base_function (ext : ExtCalls) (vm : VM) (base : BaseFunction) : VM :=
  let a1 :=
    match base with
    | BaseFunction.GetSepcificationVersion =>
      (ext.spec_version_major <<< 24) ||| ext.spec_version_minor
    | BaseFunction.GetImplementationID => ext.sbi_impl_id
    | BaseFunction.GetImplementationVersion => ext.sbi_impl_version
    | BaseFunction.ProbeSbiExtension extension => ext.probe_extension extension
    | BaseFunction.GetMachineVendorID => ext.mvendorid
    | BaseFunction.GetMachineArchitectureID => ext.marchid
    | BaseFunction.GetMachineImplementationID => ext.mimpid
  { vm with gprs := (vm.gprs.set_reg 11 a1).set_reg 10 0 }

/-- `VM::handle_pmu_function`: A0 is zeroed first; counter-info and
counter-stop forward the firmware's (error, value) into (A0, A1). -/
def VM.handle_pmu_function (ext : ExtCalls) (vm : VM) (pmu : PmuFunction) : VM :=
  let g0 := vm.gprs.set_reg 10 0
  let g1 :=
    match pmu with
    | PmuFunction.GetNumCounters => g0.set_reg 11 ext.pmu_num_counters
    | PmuFunction.GetCounterInfo counter_index =>
      let r := ext.pmu_counter_get_info counter_index
      (g0.set_reg 10 r.error).set_reg 11 r.value
    | PmuFunction.StopCounter counter_index counter_mask stop_flags =>
      let r := ext.pmu_counter_stop counter_index counter_mask stop_flags
      (g0.set_reg 10 r.error).set_reg 11 r.value
  { vm with gprs := g1 }

/-- `VM::handle_rfnc_function`: A0 is zeroed first; both fence forwards place
the firmware's (error, value) into (A0, A1). -/
def VM.handle_rfnc_function (ext : ExtCalls) (vm : VM) (rfnc : RemoteFenceFunction) : VM :=
  let g0 := vm.gprs.set_reg 10 0
  let g1 :=
    match rfnc with
    | RemoteFenceFunction.FenceI hart_mask hart_mask_base =>
      let r := ext.remote_fence_i hart_mask hart_mask_base
      (g0.set_reg 10 r.error).set_reg 11 r.value
    | RemoteFenceFunction.RemoteSFenceVMA hart_mask hart_mask_base start_addr size =>
      let r := ext.remote_sfence_vma hart_mask hart_mask_base start_addr size
      (g0.set_reg 10 r.error).set_reg 11 r.value
  { vm with gprs := g1 }

/-- `VM::handle_irq`: read the physical claim/complete register of context 1,
store it in the PLIC model, and raise `hvip.VSEIP`. -/
def VM.handle_irq (ext : ExtCalls) (vm : VM) : VM :=
  { vm with
    plic_claim_complete := vm.plic_claim_complete.set 1 ext.hw_claim
    hvip_vseip := true }

/-- Outcome of one iteration of the `VM::run` loop: the VM afterwards,
`ret = some t` when the iteration returns trap `t` to the VMM (`none` = the
loop continues), and `panicked` for the `panic!` / `todo!()` /
`unreachable!()` / failed-`assert!` paths. -/
structure StepOut where
  vm : VM
  ret : Option VmmTrap
  panicked : Bool

/-- One iteration of the loop in `VM::run`: `restore_state` (which advances
the vCPU PC by `instruction_length` when `advance_pc` was set by the previous
iteration), clearing `advance_pc` and resetting `instruction_length` to 4,
then `run_and_save_state` — the guest runs and leaves `guest_gprs` in the
register snapshot, exiting with `exit` — and finally the dispatch `match`.
All `Ecall(Some(_))` messages set `advance_pc` before dispatching. -/
def VM.run_step (ext : ExtCalls) (vm0 : VM) (exit : VmExitInfo) (guest_gprs : Gprs) : StepOut :=
  let pc := if vm0.advance_pc then vm0.vcpu_pc + vm0.instruction_length else vm0.vcpu_pc
  let vm := { vm0 with
    vcpu_pc := pc, advance_pc := false, instruction_length := 4, gprs := guest_gprs }
  match exit with
  | VmExitInfo.Ecall none => ⟨vm, none, true⟩
  | VmExitInfo.Ecall (some sbi_msg) =>
    let vm := { vm with advance_pc := true }
    match sbi_msg with
    | HyperCallMsg.Base b => ⟨vm.handle_base_function ext b, none, false⟩
    | HyperCallMsg.GetChar =>
      let r := vm.read_from_input_buffer
      ⟨{ r.1 with gprs := r.1.gprs.set_reg 10 r.2 }, none, false⟩
    | HyperCallMsg.PutChar _ => ⟨vm, none, false⟩
    | HyperCallMsg.SetTimer timer =>
      let t := timer % 2 ^ 64
      ⟨vm.set_timer t, some (VmmTrap.SetTimer t), false⟩
    | HyperCallMsg.Reset _ => ⟨vm, none, false⟩
    | HyperCallMsg.RemoteFence rfnc => ⟨vm.handle_rfnc_function ext rfnc, none, false⟩
    | HyperCallMsg.PMU pmu => ⟨vm.handle_pmu_function ext pmu, none, false⟩
    | HyperCallMsg.otherMsg => ⟨vm, none, true⟩
  | VmExitInfo.PageFault fault_addr falut_pc inst priv_level =>
    match priv_level with
    | PrivilegeLevel.Supervisor =>
      let r := vm.handle_page_fault ext falut_pc inst fault_addr
      if r.panicked then ⟨r.vm, none, true⟩
      else
        match r.res with
        | HyperResult.ok inst_len =>
          ⟨{ r.vm with instruction_length := inst_len, advance_pc := true }, none, false⟩
        | HyperResult.err _ => ⟨r.vm, none, true⟩
    | PrivilegeLevel.User => ⟨vm, none, true⟩
  | VmExitInfo.TimerInterruptEmulation => ⟨vm, some VmmTrap.TimerInterruptEmulation, false⟩
  | VmExitInfo.ExternalInterruptEmulation =>
    ⟨vm.handle_irq ext, none, ext.hw_claim = 0⟩
  | VmExitInfo.otherExit => ⟨vm, none, false⟩

/-- The values left in A0 by `n` consecutive guest `GetChar` ecalls (the
guest leaves the register snapshot unchanged between them). -/
def VM.getchar_trace (ext : ExtCalls) : Nat → VM → List Nat
  | 0, _ => []
  | n + 1, vm =>
    let vm1 := (vm.run_step ext (VmExitInfo.Ecall (some HyperCallMsg.GetChar)) vm.gprs).vm
    vm1.gprs.reg 10 :: VM.getchar_trace ext n vm1

/-! ## Shared lemmas -/

/-- `inject_pending_events` touches only the queue and the interrupt-window
bit: `launched`, `RFLAGS` and the interruptibility state are preserved. -/
theorem inject_pending_events_preserves (v : VmxVcpu) :
    v.inject_pending_events.vcpu.launched = v.launched ∧
    v.inject_pending_events.vcpu.rflags = v.rflags ∧
    v.inject_pending_events.vcpu.interruptibility_state = v.interruptibility_state := by
  unfold VmxVcpu.inject_pending_events
  cases hp : v.pending_events with
  | nil => exact ⟨rfl, rfl, rfl⟩
  | cons e rest =>
    dsimp only
    split
    · exact ⟨rfl, rfl, rfl⟩
    · exact ⟨rfl, rfl, rfl⟩

/-- On an already-launched vCPU, `run` injects pending events and resumes. -/
theorem run_enter_of_launched (v : VmxVcpu) (h : v.launched = true) :
    v.run_enter =
      ⟨v.inject_pending_events.vcpu, v.inject_pending_events.injected, EnterInstr.resume⟩ := by
  unfold VmxVcpu.run_enter
  rw [if_pos h]
  rw [if_pos ((inject_pending_events_preserves v).1.trans h)]

/-- On a vCPU that has never entered the guest, `run` skips injection, sets
`launched` and issues `vmlaunch`. -/
theorem run_enter_of_unlaunched (v : VmxVcpu) (h : v.launched = false) :
    v.run_enter = ⟨{ v with launched := true }, none, EnterInstr.launch⟩ := by
  unfold VmxVcpu.run_enter
  rw [if_neg (by simp [h]), if_neg (by simp [h])]

/-- Every call to `run` leaves `launched` set. -/
theorem run_enter_launched (v : VmxVcpu) : v.run_enter.vcpu.launched = true := by
  cases h : v.launched
  · rw [run_enter_of_unlaunched v h]
  · rw [run_enter_of_launched v h]
    exact (inject_pending_events_preserves v).1.trans h

/-- `launched` stays set across any further calls to `run`. -/
theorem run_calls_launched (v : VmxVcpu) (n : Nat) (h : v.launched = true) :
    (v.run_calls n).launched = true := by
  induction n generalizing v with
  | zero => exact h
  | succ n ih => exact ih _ (run_enter_launched v)

/-! ## C5 — launch exactly on the first call, resume afterwards -/

/-- C5: for a freshly created vCPU, the `n`-th call to `run` (0-based) enters
the guest with `vmlaunch` exactly when `n = 0` and with `vmresume` otherwise,
and the `launched` flag observed after `n` calls is set exactly when at least
one entry has happened. -/
theorem first_entry_launch_then_resume (vcpu_id entry xcr0 xss n : Nat) :
    (((VmxVcpu.new vcpu_id entry xcr0 xss).run_calls n).launched = decide (0 < n)) ∧
    ((VmxVcpu.new vcpu_id entry xcr0 xss).enter_instr_at n = EnterInstr.launch ↔ n = 0) := by
  have hnew : (VmxVcpu.new vcpu_id entry xcr0 xss).launched = false := rfl
  constructor
  · cases n with
    | zero => simpa using hnew
    | succ n =>
      simp only [VmxVcpu.run_calls]
      rw [run_calls_launched _ n (run_enter_launched _)]
      simp
  · unfold VmxVcpu.enter_instr_at
    cases n with
    | zero =>
      simp only [VmxVcpu.run_calls]
      rw [run_enter_of_unlaunched _ hnew]
      simp
    | succ n =>
      have hl : ((VmxVcpu.new vcpu_id entry xcr0 xss).run_calls (n + 1)).launched = true := by
        simp only [VmxVcpu.run_calls]
        exact run_calls_launched _ n (run_enter_launched _)
      rw [run_enter_of_launched _ hl]
      simp

/-! ## C1 — event injection relative to entries -/

/-- C1, counterexample: on the very first call to `run` the pending-events
queue is not consulted at all.  With a freshly created vCPU holding one
queued event whose head is injectable (vector 6 < 32, an exception, hence
injectable unconditionally), the first call injects nothing and leaves the
queue untouched, contradicting "including events queued before the very
first entry of the vCPU ... the head is injected and popped before the guest
is entered". -/
theorem run_first_call_injects_nothing :
    ((VmxVcpu.new 0 0x8000 7 0).queue_event 6 none).pending_events = [(6, none)] ∧
    (6 : Nat) < 32 ∧
    ((VmxVcpu.new 0 0x8000 7 0).queue_event 6 none).run_enter.injected = none ∧
    ((VmxVcpu.new 0 0x8000 7 0).queue_event 6 none).run_enter.vcpu.pending_events
      = [(6, none)] := by
  decide

/-- C1, amended: once the vCPU is launched (that is, on every call to `run`
after the first), a non-empty queue with an injectable head (an exception, or
any event while interrupts are deliverable) has its head injected and popped
before the guest is entered; and with the interrupt window open throughout,
`n` consecutive calls inject the first `n` queued events in FIFO order, one
per entry.  Events queued before the very first entry are therefore first
injected on the second call to `run`. -/
theorem run_injects_fifo_once_launched :
    (∀ (v : VmxVcpu) (e : Nat × Option Nat) (rest : List (Nat × Option Nat)),
      v.launched = true → v.pending_events = e :: rest →
      (e.1 < 32 ∨ v.allow_interrupt = true) →
      v.run_enter.injected = some e ∧ v.run_enter.vcpu.pending_events = rest) ∧
    (∀ (v : VmxVcpu) (n : Nat),
      v.launched = true → v.rflags &&& 0x200 ≠ 0 → v.interruptibility_state = 0 →
      n ≤ v.pending_events.length →
      v.inj_trace n = (v.pending_events.take n).map some) := by
  have hinj : ∀ (v : VmxVcpu) (e : Nat × Option Nat) (rest : List (Nat × Option Nat)),
      v.pending_events = e :: rest → (e.1 < 32 ∨ v.allow_interrupt = true) →
      v.inject_pending_events = ⟨{ v with pending_events := rest }, some e⟩ := by
    intro v e rest hp hcond
    unfold VmxVcpu.inject_pending_events
    rw [hp]
    dsimp only
    rw [if_pos]
    rcases hcond with h | h
    · simp [h]
    · simp [h]
  constructor
  · intro v e rest hl hp hcond
    rw [run_enter_of_launched v hl, hinj v e rest hp hcond]
    exact ⟨rfl, rfl⟩
  · intro v n
    induction n generalizing v with
    | zero => intro _ _ _ _; simp [VmxVcpu.inj_trace]
    | succ n ih =>
      intro hl hif hblock hlen
      cases hp : v.pending_events with
      | nil => rw [hp] at hlen; simp at hlen
      | cons e rest =>
        have hallow : v.allow_interrupt = true := by
          unfold VmxVcpu.allow_interrupt
          simp [hif, hblock]
        have hstep := hinj v e rest hp (Or.inr hallow)
        have henter := run_enter_of_launched v hl
        rw [hp] at hlen
        simp only [VmxVcpu.inj_trace, henter, hstep]
        have ihz := ih { v with pending_events := rest } hl hif hblock
          (by simpa using Nat.le_of_succ_le_succ hlen)
        simp only [List.take, List.map, hp]
        rw [← ihz]

/-- C1, amended, witness: a launched vCPU with the interrupt window open and
two queued interrupts injects them in order on the next two entries. -/
theorem run_injects_fifo_once_launched_wit :
    (({ (VmxVcpu.new 0 0x8000 7 0).queue_event 33 none |>.queue_event 34 none with
        launched := true, rflags := 0x202 } : VmxVcpu).run_enter.injected = some (33, none)) ∧
    (({ (VmxVcpu.new 0 0x8000 7 0).queue_event 33 none |>.queue_event 34 none with
        launched := true, rflags := 0x202 } : VmxVcpu).inj_trace 2
      = [some (33, none), some (34, none)]) := by
  have h1 := run_injects_fifo_once_launched.1
    ({ (VmxVcpu.new 0 0x8000 7 0).queue_event 33 none |>.queue_event 34 none with
        launched := true, rflags := 0x202 } : VmxVcpu) (33, none) [(34, none)]
    (by decide) (by decide) (by right; decide)
  have h2 := run_injects_fifo_once_launched.2
    ({ (VmxVcpu.new 0 0x8000 7 0).queue_event 33 none |>.queue_event 34 none with
        launched := true, rflags := 0x202 } : VmxVcpu) 2
    (by decide) (by decide) (by decide) (by decide)
  exact ⟨h1.1, by rw [h2]; decide⟩

/-! ## C2 — the interrupt-window gate -/

/-- C2: when the head of the pending-events queue is an external interrupt
(vector ≥ 32) and guest interrupts are blocked (`RFLAGS.IF` clear, or a
nonzero interruptibility state), the injection step leaves the queue exactly
as it was, injects nothing, and turns on interrupt-window exiting — and no
error is raised (the embedded function is total).  A head with vector < 32
(an exception) is injected and popped unconditionally. -/
theorem inject_gate_blocks_interrupts_keeps_queue (v : VmxVcpu) (vec : Nat)
    (ec : Option Nat) (rest : List (Nat × Option Nat))
    (hp : v.pending_events = (vec, ec) :: rest) :
    ((32 ≤ vec → (v.rflags &&& 0x200 = 0 ∨ v.interruptibility_state ≠ 0) →
      v.inject_pending_events.vcpu.pending_events = v.pending_events ∧
      v.inject_pending_events.injected = none ∧
      v.inject_pending_events.vcpu.interrupt_window_exiting = true)) ∧
    (vec < 32 →
      v.inject_pending_events.injected = some (vec, ec) ∧
      v.inject_pending_events.vcpu.pending_events = rest) := by
  constructor
  · intro hge hblock
    have hallow : v.allow_interrupt = false := by
      unfold VmxVcpu.allow_interrupt
      rcases hblock with h | h <;> simp [h]
    unfold VmxVcpu.inject_pending_events
    rw [hp]
    dsimp only
    rw [if_neg (by simp [hallow, Nat.not_lt.mpr hge])]
    exact ⟨hp, rfl, rfl⟩
  · intro hlt
    unfold VmxVcpu.inject_pending_events
    rw [hp]
    dsimp only
    rw [if_pos (by simp [hlt])]
    exact ⟨rfl, rfl⟩

/-- C2, witness: vector 33 queued while `RFLAGS.IF = 0` stays queued and arms
the interrupt window; vector 6 queued in the same state is injected. -/
theorem inject_gate_blocks_interrupts_keeps_queue_wit :
    ((((VmxVcpu.new 0 0x8000 7 0).queue_event 33 none).inject_pending_events.vcpu.pending_events
        = ((VmxVcpu.new 0 0x8000 7 0).queue_event 33 none).pending_events) ∧
      ((VmxVcpu.new 0 0x8000 7 0).queue_event 33 none).inject_pending_events.injected = none ∧
      ((VmxVcpu.new 0 0x8000 7 0).queue_event 33 none).inject_pending_events.vcpu.interrupt_window_exiting
        = true) ∧
    (((VmxVcpu.new 0 0x8000 7 0).queue_event 6 none).inject_pending_events.injected
        = some (6, none) ∧
      ((VmxVcpu.new 0 0x8000 7 0).queue_event 6 none).inject_pending_events.vcpu.pending_events
        = []) := by
  exact ⟨(inject_gate_blocks_interrupts_keeps_queue
      ((VmxVcpu.new 0 0x8000 7 0).queue_event 33 none) 33 none [] (by decide)).1
      (by decide) (Or.inl (by decide)),
    (inject_gate_blocks_interrupts_keeps_queue
      ((VmxVcpu.new 0 0x8000 7 0).queue_event 6 none) 6 none [] (by decide)).2 (by decide)⟩

/-! ## C3 — XSETBV validation -/

/-- C3, counterexample: the requested XCR0 value `0x101` (FPU/MMX plus
bit 8) satisfies all four validation rules of the claim, yet the handler
returns `InvalidParam` and leaves the vCPU untouched, because
`Xcr0::from_bits` already rejects any value with a bit outside the flags the
`x86` crate defines (bits 0–7 and 9).  So "returns `InvalidParam` … if and
only if the requested XCR0 value violates the validation rules" fails in the
only-if direction, and "on a valid value it sets `guest_xcr0`" fails at this
input. -/
theorem xsetbv_rejects_unknown_bit_cex :
    xcr0_rules_ok 0x101 = true ∧
    ({ VmxVcpu.new 0 0x8000 7 0 with
        guest_regs := { rax := 0x101 } } : VmxVcpu).handle_xsetbv
      = ({ VmxVcpu.new 0 0x8000 7 0 with guest_regs := { rax := 0x101 } },
          HyperResult.err HyperError.InvalidParam) := by
  decide

/-- C3, amended: for an XSETBV exit with XCR index 0, the handler returns
`InvalidParam` and leaves the whole vCPU (in particular `guest_xcr0` and
RIP) unchanged if and only if the requested value either has a bit outside
those recognised by the `Xcr0` flags type (bits 0–7 and 9) or violates the
validation rules; on a recognised, rule-satisfying value it sets
`guest_xcr0` to that value and advances RIP by exactly 3. -/
theorem xsetbv_validation_iff (v : VmxVcpu)
    (hidx : v.guest_regs.rcx % 2 ^ 32 = 0) :
    ((v.handle_xsetbv = (v, HyperResult.err HyperError.InvalidParam)) ↔
      ¬((((v.guest_regs.rdx % 2 ^ 32) <<< 32) ||| (v.guest_regs.rax % 2 ^ 32))
            &&& (2 ^ 64 - 1 - XCR0_KNOWN_BITS) = 0 ∧
        xcr0_rules_ok (((v.guest_regs.rdx % 2 ^ 32) <<< 32) ||| (v.guest_regs.rax % 2 ^ 32))
          = true)) ∧
    ((((v.guest_regs.rdx % 2 ^ 32) <<< 32) ||| (v.guest_regs.rax % 2 ^ 32))
          &&& (2 ^ 64 - 1 - XCR0_KNOWN_BITS) = 0 →
      xcr0_rules_ok (((v.guest_regs.rdx % 2 ^ 32) <<< 32) ||| (v.guest_regs.rax % 2 ^ 32))
        = true →
      v.handle_xsetbv =
        ({ v with
            guest_xcr0 := ((v.guest_regs.rdx % 2 ^ 32) <<< 32) ||| (v.guest_regs.rax % 2 ^ 32),
            rip := v.rip + 3 }, HyperResult.ok ())) := by
  unfold VmxVcpu.handle_xsetbv
  rw [if_pos hidx]
  constructor
  · constructor
    · intro heq hboth
      rw [if_pos (by
        simp only [Bool.and_eq_true, decide_eq_true_eq]
        exact ⟨hboth.1, hboth.2⟩)] at heq
      simpa using congrArg Prod.snd heq
    · intro hneg
      rw [if_neg (by
        simp only [Bool.and_eq_true, decide_eq_true_eq]
        exact fun h => hneg ⟨h.1, h.2⟩)]
  · intro hknown hrules
    rw [if_pos (by
      simp only [Bool.and_eq_true, decide_eq_true_eq]
      exact ⟨hknown, hrules⟩)]

/-- C3, amended, witness: the recognised, rule-satisfying value 0x7
(FPU + SSE + AVX) is stored into `guest_xcr0` and RIP moves from 0x8000 to
0x8003. -/
theorem xsetbv_validation_iff_wit :
    ({ VmxVcpu.new 0 0x8000 7 0 with guest_regs := { rax := 0x7 } } : VmxVcpu).handle_xsetbv
      = ({ VmxVcpu.new 0 0x8000 7 0 with
            guest_regs := { rax := 0x7 }, guest_xcr0 := 0x7, rip := 0x8003 },
          HyperResult.ok ()) := by
  have h := (xsetbv_validation_iff
    ({ VmxVcpu.new 0 0x8000 7 0 with guest_regs := { rax := 0x7 } } : VmxVcpu)
    (by decide)).2 (by decide) (by decide)
  rw [h]
  decide

/-! ## C6 — CPUID leaf 1 feature masking -/

/-- C6: whatever the host CPUID instruction returns, emulating leaf 0x1
leaves guest ECX with the VMX bit (bit 5) cleared and the
hypervisor-present bit (bit 31) set, and advances RIP by exactly 2. -/
theorem cpuid_leaf1_masks_vmx_sets_hypervisor (host : Nat → Nat → CpuIdResult)
    (v : VmxVcpu) (h : v.guest_regs.rax % 2 ^ 32 = 0x1) :
    Nat.testBit (v.handle_cpuid host).guest_regs.rcx 5 = false ∧
    Nat.testBit (v.handle_cpuid host).guest_regs.rcx 31 = true ∧
    (v.handle_cpuid host).rip = v.rip + 2 := by
  have h5 : Nat.testBit 0xffffffdf 5 = false := by decide
  have h5b : Nat.testBit 0x80000000 5 = false := by decide
  have h31 : Nat.testBit 0x80000000 31 = true := by decide
  unfold VmxVcpu.handle_cpuid
  rw [h]
  refine ⟨?_, ?_, ?_⟩ <;>
    simp [Nat.testBit_lor, Nat.testBit_land, h5, h5b, h31]

/-- C6, witness: a host answering leaf 1 with all ECX bits set still yields a
guest ECX with bit 5 clear and bit 31 set, and RIP 0x8000 → 0x8002. -/
theorem cpuid_leaf1_masks_vmx_sets_hypervisor_wit :
    Nat.testBit ((VmxVcpu.handle_cpuid (fun _ _ => ⟨0, 0, 0xffffffff, 0⟩)
      { VmxVcpu.new 0 0x8000 7 0 with guest_regs := { rax := 0x1 } }).guest_regs.rcx) 5
        = false ∧
    Nat.testBit ((VmxVcpu.handle_cpuid (fun _ _ => ⟨0, 0, 0xffffffff, 0⟩)
      { VmxVcpu.new 0 0x8000 7 0 with guest_regs := { rax := 0x1 } }).guest_regs.rcx) 31
        = true ∧
    (VmxVcpu.handle_cpuid (fun _ _ => ⟨0, 0, 0xffffffff, 0⟩)
      { VmxVcpu.new 0 0x8000 7 0 with guest_regs := { rax := 0x1 } }).rip
        = ({ VmxVcpu.new 0 0x8000 7 0 with guest_regs := { rax := 0x1 } } : VmxVcpu).rip + 2 := by
  exact cpuid_leaf1_masks_vmx_sets_hypervisor (fun _ _ => ⟨0, 0, 0xffffffff, 0⟩)
    { VmxVcpu.new 0 0x8000 7 0 with guest_regs := { rax := 0x1 } } (by decide)

/-! ## C7 — CPUID hypervisor leaves -/

/-- C7: a CPUID exit with EAX = 0x40000000 puts 0x40000001 in guest RAX and
the three little-endian words of the ASCII string "RVMRVMRVMRVM" in guest
RBX/RCX/RDX and advances RIP by 2; EAX = 0x40000001 yields four zero
registers. -/
theorem cpuid_hypervisor_leaves (host : Nat → Nat → CpuIdResult) (v : VmxVcpu) :
    (v.guest_regs.rax % 2 ^ 32 = 0x40000000 →
      (v.handle_cpuid host).guest_regs.rax = 0x40000001 ∧
      (v.handle_cpuid host).guest_regs.rbx = vendor_word 0 ∧
      (v.handle_cpuid host).guest_regs.rcx = vendor_word 1 ∧
      (v.handle_cpuid host).guest_regs.rdx = vendor_word 2 ∧
      (v.handle_cpuid host).rip = v.rip + 2) ∧
    (v.guest_regs.rax % 2 ^ 32 = 0x40000001 →
      (v.handle_cpuid host).guest_regs.rax = 0 ∧
      (v.handle_cpuid host).guest_regs.rbx = 0 ∧
      (v.handle_cpuid host).guest_regs.rcx = 0 ∧
      (v.handle_cpuid host).guest_regs.rdx = 0) := by
  constructor
  · intro h
    unfold VmxVcpu.handle_cpuid
    rw [h]
    norm_num
  · intro h
    unfold VmxVcpu.handle_cpuid
    rw [h]
    norm_num

/-- C7, witness: both hypervisor leaves evaluated on concrete vCPUs, with the
vendor words spelled out. -/
theorem cpuid_hypervisor_leaves_wit :
    ((VmxVcpu.handle_cpuid (fun _ _ => ⟨0, 0, 0, 0⟩)
        { VmxVcpu.new 0 0x8000 7 0 with
          guest_regs := { rax := 0x40000000 } }).guest_regs.rax = 0x40000001 ∧
      (VmxVcpu.handle_cpuid (fun _ _ => ⟨0, 0, 0, 0⟩)
        { VmxVcpu.new 0 0x8000 7 0 with
          guest_regs := { rax := 0x40000000 } }).guest_regs.rbx = vendor_word 0) ∧
    vendor_word 0 = 0x524D5652 ∧ vendor_word 1 = 0x56524D56 ∧ vendor_word 2 = 0x4D56524D ∧
    (VmxVcpu.handle_cpuid (fun _ _ => ⟨0, 0, 0, 0⟩)
      { VmxVcpu.new 0 0x8000 7 0 with
        guest_regs := { rax := 0x40000001 } }).guest_regs.rax = 0 := by
  have h1 := (cpuid_hypervisor_leaves (fun _ _ => ⟨0, 0, 0, 0⟩)
    { VmxVcpu.new 0 0x8000 7 0 with guest_regs := { rax := 0x40000000 } }).1 (by decide)
  have h2 := (cpuid_hypervisor_leaves (fun _ _ => ⟨0, 0, 0, 0⟩)
    { VmxVcpu.new 0 0x8000 7 0 with guest_regs := { rax := 0x40000001 } }).2 (by decide)
  exact ⟨⟨h1.1, h1.2.1⟩, by decide, by decide, by decide, h2.1⟩

/-! ## C10 — XSETBV with a nonzero XCR index -/

/-- C10: an XSETBV exit whose XCR index (low 32 bits of guest RCX) is nonzero
makes `handle_xsetbv` return `NotSupported` — not `InvalidParam` — with the
vCPU (in particular `guest_xcr0` and RIP) untouched; and because the run
loop panics when a built-in handler errs, the dispatch of that exit panics
the hypervisor instead of surfacing the exit to the VMM. -/
theorem xsetbv_nonzero_index_not_supported_panics (host : Nat → Nat → CpuIdResult)
    (int_vector : Nat) (v : VmxVcpu) (h : v.guest_regs.rcx % 2 ^ 32 ≠ 0) :
    v.handle_xsetbv = (v, HyperResult.err HyperError.NotSupported) ∧
    v.run_dispatch host int_vector ⟨VmxExitReason.XSETBV, false⟩
      = ⟨v, false, true⟩ := by
  have hx : v.handle_xsetbv = (v, HyperResult.err HyperError.NotSupported) := by
    unfold VmxVcpu.handle_xsetbv
    rw [if_neg h]
  refine ⟨hx, ?_⟩
  unfold VmxVcpu.run_dispatch
  simp [hx]

/-- C10, witness: XCR index 1 on a concrete vCPU. -/
theorem xsetbv_nonzero_index_not_supported_panics_wit :
    ({ VmxVcpu.new 0 0x8000 7 0 with guest_regs := { rcx := 1 } } : VmxVcpu).handle_xsetbv
      = ({ VmxVcpu.new 0 0x8000 7 0 with guest_regs := { rcx := 1 } },
          HyperResult.err HyperError.NotSupported) ∧
    ({ VmxVcpu.new 0 0x8000 7 0 with guest_regs := { rcx := 1 } } : VmxVcpu).run_dispatch
        (fun _ _ => ⟨0, 0, 0, 0⟩) 0 ⟨VmxExitReason.XSETBV, false⟩
      = ⟨{ VmxVcpu.new 0 0x8000 7 0 with guest_regs := { rcx := 1 } }, false, true⟩ := by
  exact xsetbv_nonzero_index_not_supported_panics (fun _ _ => ⟨0, 0, 0, 0⟩) 0
    { VmxVcpu.new 0 0x8000 7 0 with guest_regs := { rcx := 1 } } (by decide)

/-! ## Shared lemmas about the RISC-V step -/

/-- A trivial instantiation of the external world, for concrete evaluation
in witnesses. -/
def ExtCalls.trivial : ExtCalls where
  fetch := fun _ => HyperResult.ok 0
  decode := fun _ => none
  spec_version_major := 0
  spec_version_minor := 0
  sbi_impl_id := 0
  sbi_impl_version := 0
  probe_extension := fun _ => 0
  mvendorid := 0
  marchid := 0
  mimpid := 0
  pmu_num_counters := 0
  pmu_counter_get_info := fun _ => ⟨0, 0⟩
  pmu_counter_stop := fun _ _ _ => ⟨0, 0⟩
  remote_fence_i := fun _ _ => ⟨0, 0⟩
  remote_sfence_vma := fun _ _ _ _ => ⟨0, 0⟩
  hw_claim := 1

/-- `handle_plic` only touches the PLIC register file and the guest
registers: timer, PC, `advance_pc`, `instruction_length` and the PLIC base
are preserved. -/
theorem handle_plic_preserved (ext : ExtCalls) (vm : VM) (a b c : Nat) :
    (vm.handle_plic ext a b c).vm.timer = vm.timer ∧
    (vm.handle_plic ext a b c).vm.vcpu_pc = vm.vcpu_pc ∧
    (vm.handle_plic ext a b c).vm.advance_pc = vm.advance_pc ∧
    (vm.handle_plic ext a b c).vm.instruction_length = vm.instruction_length ∧
    (vm.handle_plic ext a b c).vm.plic_base = vm.plic_base := by
  unfold VM.handle_plic
  repeat' (first | dsimp only | split)
  all_goals exact ⟨rfl, rfl, rfl, rfl, rfl⟩

/-- Same preservation through `handle_page_fault`. -/
theorem handle_page_fault_preserved (ext : ExtCalls) (vm : VM) (a b c : Nat) :
    (vm.handle_page_fault ext a b c).vm.timer = vm.timer ∧
    (vm.handle_page_fault ext a b c).vm.vcpu_pc = vm.vcpu_pc ∧
    (vm.handle_page_fault ext a b c).vm.advance_pc = vm.advance_pc ∧
    (vm.handle_page_fault ext a b c).vm.instruction_length = vm.instruction_length ∧
    (vm.handle_page_fault ext a b c).vm.plic_base = vm.plic_base := by
  unfold VM.handle_page_fault
  split
  · exact handle_plic_preserved ext vm a b c
  · exact ⟨rfl, rfl, rfl, rfl, rfl⟩

set_option linter.unnecessarySeqFocus false in
/-- Every branch of one `VM::run` iteration leaves the vCPU PC at the value
`restore_state` computed: the old PC, advanced by `instruction_length` when
`advance_pc` was set by the previous iteration. -/
theorem run_step_vcpu_pc (ext : ExtCalls) (vm : VM) (exit : VmExitInfo) (g : Gprs) :
    (vm.run_step ext exit g).vm.vcpu_pc
      = if vm.advance_pc then vm.vcpu_pc + vm.instruction_length else vm.vcpu_pc := by
  cases exit with
  | Ecall sbi_msg =>
    cases sbi_msg with
    | none => rfl
    | some msg =>
      cases msg <;>
        simp [VM.run_step, VM.handle_base_function, VM.handle_pmu_function,
          VM.handle_rfnc_function, VM.read_from_input_buffer, VM.set_timer] <;>
        (try split) <;> rfl
  | PageFault fault_addr falut_pc inst priv_level =>
    cases priv_level with
    | User => rfl
    | Supervisor =>
      simp only [VM.run_step]
      repeat' split
      all_goals exact (handle_page_fault_preserved ext _ falut_pc inst fault_addr).2.1
  | TimerInterruptEmulation => rfl
  | ExternalInterruptEmulation => rfl
  | otherExit => rfl

/-- One GetChar iteration on a non-empty buffer: the front byte lands in A0
and is removed from the buffer, while `advance_pc`/`instruction_length` are
left as the ecall path sets them. -/
theorem getchar_step_cons (ext : ExtCalls) (vm : VM) (g : Gprs) (c : Nat) (rest : List Nat)
    (hb : vm.input_buffer = c :: rest) :
    (vm.run_step ext (VmExitInfo.Ecall (some HyperCallMsg.GetChar)) g).vm.gprs.reg 10 = c ∧
    (vm.run_step ext (VmExitInfo.Ecall (some HyperCallMsg.GetChar)) g).vm.input_buffer = rest := by
  simp [VM.run_step, VM.read_from_input_buffer, hb, Gprs.set_reg, Gprs.reg]

/-! ## C8 — SBI GetChar and the input buffer -/

/-- C8: a GetChar ecall on an empty input buffer puts `usize::MAX` in guest
A0 with `advance_pc` set and `instruction_length` 4 (and the loop neither
returns nor panics on it); `add_char_to_input_buffer` appends at the back;
and `n` consecutive GetChar ecalls return the first `n` buffered bytes in
push (FIFO) order. -/
theorem getchar_empty_sentinel_and_fifo (ext : ExtCalls) :
    (∀ (vm : VM) (g : Gprs), vm.input_buffer = [] →
      (vm.run_step ext (VmExitInfo.Ecall (some HyperCallMsg.GetChar)) g).vm.gprs.reg 10
          = USIZE_MAX ∧
      (vm.run_step ext (VmExitInfo.Ecall (some HyperCallMsg.GetChar)) g).vm.advance_pc = true ∧
      (vm.run_step ext (VmExitInfo.Ecall (some HyperCallMsg.GetChar)) g).vm.instruction_length
          = 4 ∧
      (vm.run_step ext (VmExitInfo.Ecall (some HyperCallMsg.GetChar)) g).ret = none ∧
      (vm.run_step ext (VmExitInfo.Ecall (some HyperCallMsg.GetChar)) g).panicked = false) ∧
    (∀ (vm : VM) (c : Nat),
      (vm.add_char_to_input_buffer c).input_buffer = vm.input_buffer ++ [c]) ∧
    (∀ (vm : VM) (n : Nat), n ≤ vm.input_buffer.length →
      VM.getchar_trace ext n vm = vm.input_buffer.take n) := by
  refine ⟨?_, ?_, ?_⟩
  · intro vm g hb
    refine ⟨?_, ?_, ?_, ?_, ?_⟩ <;>
      simp [VM.run_step, VM.read_from_input_buffer, hb, Gprs.set_reg, Gprs.reg]
  · intro vm c
    rfl
  · intro vm n
    induction n generalizing vm with
    | zero => intro _; simp [VM.getchar_trace]
    | succ n ih =>
      intro hlen
      cases hb : vm.input_buffer with
      | nil => rw [hb] at hlen; simp at hlen
      | cons c rest =>
        rw [hb] at hlen
        have hstep := getchar_step_cons ext vm vm.gprs c rest hb
        simp only [VM.getchar_trace, Gprs.reg] at hstep ⊢
        rw [hstep.1, List.take]
        have := ih (vm.run_step ext (VmExitInfo.Ecall (some HyperCallMsg.GetChar)) vm.gprs).vm
          (by rw [hstep.2]; exact Nat.le_of_succ_le_succ hlen)
        rw [this, hstep.2]

/-- C8, witness: with buffer [7, 9], the first two GetChars return 7 then 9,
and an empty buffer returns `usize::MAX` with `advance_pc` set. -/
theorem getchar_empty_sentinel_and_fifo_wit :
    (((VM.new 0).run_step ExtCalls.trivial (VmExitInfo.Ecall (some HyperCallMsg.GetChar))
        (VM.new 0).gprs).vm.gprs.reg 10 = USIZE_MAX ∧
      ((VM.new 0).run_step ExtCalls.trivial (VmExitInfo.Ecall (some HyperCallMsg.GetChar))
        (VM.new 0).gprs).vm.advance_pc = true) ∧
    VM.getchar_trace ExtCalls.trivial 2 (((VM.new 0).add_char_to_input_buffer 7).add_char_to_input_buffer 9)
      = [7, 9] := by
  have h1 := (getchar_empty_sentinel_and_fifo ExtCalls.trivial).1 (VM.new 0) (VM.new 0).gprs rfl
  have h3 := (getchar_empty_sentinel_and_fifo ExtCalls.trivial).2.2
    (((VM.new 0).add_char_to_input_buffer 7).add_char_to_input_buffer 9) 2 (by decide)
  refine ⟨⟨h1.1, h1.2.1⟩, ?_⟩
  rw [h3]
  decide

/-! ## C9 — SetTimer -/

/-- C9: a fresh VM reports `u64::MAX` from `get_timer`; a guest SetTimer
ecall makes that iteration of `VM::run` return `VmmTrap::SetTimer(deadline)`
with `get_timer` reading the deadline from then on; and no other exit ever
changes the timer, so the value persists until the next SetTimer. -/
theorem set_timer_surfaces_and_persists :
    (∀ entry_pc : Nat, (VM.new entry_pc).get_timer = 2 ^ 64 - 1) ∧
    (∀ (ext : ExtCalls) (vm : VM) (g : Gprs) (t : Nat), t < 2 ^ 64 →
      (vm.run_step ext (VmExitInfo.Ecall (some (HyperCallMsg.SetTimer t))) g).ret
          = some (VmmTrap.SetTimer t) ∧
      (vm.run_step ext (VmExitInfo.Ecall (some (HyperCallMsg.SetTimer t))) g).vm.get_timer
          = t) ∧
    (∀ (ext : ExtCalls) (vm : VM) (exit : VmExitInfo) (g : Gprs),
      (∀ t, exit ≠ VmExitInfo.Ecall (some (HyperCallMsg.SetTimer t))) →
      (vm.run_step ext exit g).vm.get_timer = vm.get_timer) := by
  refine ⟨fun _ => rfl, ?_, ?_⟩
  · intro ext vm g t ht
    have ht2 : t < 18446744073709551616 := by omega
    have hmod : t % 2 ^ 64 = t := Nat.mod_eq_of_lt ht
    constructor
    · simp [VM.run_step, hmod, ht2]
    · simp [VM.run_step, VM.set_timer, VM.get_timer, hmod, ht2]
  · intro ext vm exit g hne
    cases exit with
    | Ecall sbi_msg =>
      cases sbi_msg with
      | none => rfl
      | some msg =>
        cases msg with
        | SetTimer t => exact absurd rfl (hne t)
        | GetChar =>
          simp only [VM.run_step, VM.read_from_input_buffer, VM.get_timer]
          split <;> rfl
        | Base b => cases b <;> rfl
        | PutChar c => rfl
        | Reset r => rfl
        | RemoteFence rfnc => cases rfnc <;> rfl
        | PMU pmu => cases pmu <;> rfl
        | otherMsg => rfl
    | PageFault fault_addr falut_pc inst priv_level =>
      cases priv_level with
      | User => rfl
      | Supervisor =>
        simp only [VM.run_step, VM.get_timer]
        repeat' split
        all_goals exact (handle_page_fault_preserved ext _ falut_pc inst fault_addr).1
    | TimerInterruptEmulation => rfl
    | ExternalInterruptEmulation => rfl
    | otherExit => rfl

/-- C9, witness: the spec's concrete scenario — SetTimer(0xDEADBEEF) is
surfaced and then read back, a fresh VM reads `u64::MAX`, and a GetChar exit
does not disturb the programmed deadline. -/
theorem set_timer_surfaces_and_persists_wit :
    (VM.new 0).get_timer = 2 ^ 64 - 1 ∧
    ((VM.new 0).run_step ExtCalls.trivial
        (VmExitInfo.Ecall (some (HyperCallMsg.SetTimer 0xDEADBEEF))) (VM.new 0).gprs).ret
      = some (VmmTrap.SetTimer 0xDEADBEEF) ∧
    ((VM.new 0).run_step ExtCalls.trivial
        (VmExitInfo.Ecall (some (HyperCallMsg.SetTimer 0xDEADBEEF))) (VM.new 0).gprs).vm.get_timer
      = 0xDEADBEEF ∧
    ((((VM.new 0).run_step ExtCalls.trivial
        (VmExitInfo.Ecall (some (HyperCallMsg.SetTimer 0xDEADBEEF))) (VM.new 0).gprs).vm.run_step
          ExtCalls.trivial (VmExitInfo.Ecall (some HyperCallMsg.GetChar)) (VM.new 0).gprs).vm.get_timer
      = 0xDEADBEEF) := by
  have h1 := set_timer_surfaces_and_persists.1 0
  have h2 := set_timer_surfaces_and_persists.2.1 ExtCalls.trivial (VM.new 0) (VM.new 0).gprs
    0xDEADBEEF (by decide)
  have h3 := set_timer_surfaces_and_persists.2.2 ExtCalls.trivial
    (((VM.new 0).run_step ExtCalls.trivial
      (VmExitInfo.Ecall (some (HyperCallMsg.SetTimer 0xDEADBEEF))) (VM.new 0).gprs).vm)
    (VmExitInfo.Ecall (some HyperCallMsg.GetChar)) (VM.new 0).gprs
    (by intro t h; cases h)
  exact ⟨h1, h2.1, h2.2, h3.trans h2.2⟩

/-- Characterisation of `handle_plic` when the (possibly fetched) instruction
decodes to `Sw rs2`: the low 32 bits of `rs2` are stored into the PLIC
register at the fault address and the instruction length is returned. -/
theorem handle_plic_sw (ext : ExtCalls) (vm : VM) (a b c i : Nat) (rs2 : Fin 32)
    (hfetch : (if b = 0 then ext.fetch a else HyperResult.ok b) = HyperResult.ok i)
    (hlen : rvdec_instruction_length (i % 2 ^ 16) = 2 ∨ rvdec_instruction_length (i % 2 ^ 16) = 4)
    (hdec : ext.decode (if rvdec_instruction_length (i % 2 ^ 16) = 2 then i % 2 ^ 16 else i)
      = some (DecodedInst.Sw rs2)) :
    vm.handle_plic ext a b c =
      ⟨{ vm with
          plic_mem := fun x => if x = c then vm.gprs.reg rs2.val % 2 ^ 32 else vm.plic_mem x },
        HyperResult.ok (rvdec_instruction_length (i % 2 ^ 16)), false⟩ := by
  unfold VM.handle_plic
  rw [hfetch]
  dsimp only
  rw [if_pos hlen, hdec]

/-- Characterisation of `handle_plic` for a decoded `Lw rd`: the PLIC
register at the fault address is loaded into `rd`. -/
theorem handle_plic_lw (ext : ExtCalls) (vm : VM) (a b c i : Nat) (rd : Fin 32)
    (hfetch : (if b = 0 then ext.fetch a else HyperResult.ok b) = HyperResult.ok i)
    (hlen : rvdec_instruction_length (i % 2 ^ 16) = 2 ∨ rvdec_instruction_length (i % 2 ^ 16) = 4)
    (hdec : ext.decode (if rvdec_instruction_length (i % 2 ^ 16) = 2 then i % 2 ^ 16 else i)
      = some (DecodedInst.Lw rd)) :
    vm.handle_plic ext a b c =
      ⟨{ vm with gprs := vm.gprs.set_reg rd.val (vm.plic_mem c) },
        HyperResult.ok (rvdec_instruction_length (i % 2 ^ 16)), false⟩ := by
  unfold VM.handle_plic
  rw [hfetch]
  dsimp only
  rw [if_pos hlen, hdec]

/-- Characterisation of `handle_plic` for any other decoded instruction:
`InvalidInstruction`, with the VM untouched. -/
theorem handle_plic_other (ext : ExtCalls) (vm : VM) (a b c i : Nat)
    (hfetch : (if b = 0 then ext.fetch a else HyperResult.ok b) = HyperResult.ok i)
    (hlen : rvdec_instruction_length (i % 2 ^ 16) = 2 ∨ rvdec_instruction_length (i % 2 ^ 16) = 4)
    (hdec : ext.decode (if rvdec_instruction_length (i % 2 ^ 16) = 2 then i % 2 ^ 16 else i)
      = some DecodedInst.otherInst) :
    vm.handle_plic ext a b c =
      ⟨vm, HyperResult.err HyperError.InvalidInstruction, false⟩ := by
  unfold VM.handle_plic
  rw [hfetch]
  dsimp only
  rw [if_pos hlen, hdec]

/-! ## C4 — the PLIC MMIO decoder -/

set_option maxHeartbeats 1600000 in
/-- C4: for a supervisor-level guest page fault inside the 64 MiB PLIC
window, the handler decodes the trapping instruction — taken as supplied
when nonzero (`hinst`), otherwise fetched from guest memory — as compressed
or full-width by its 16-bit length prefix.  A decoded `Sw` writes the low 32
bits of `rs2` to the PLIC register at the fault address, a decoded `Lw`
loads that register into `rd`, and either way the iteration records the
decoded length so that the next `restore_state` advances the guest PC by
exactly that length (2 or 4).  Any other decoded instruction makes
`handle_page_fault` return the `InvalidInstruction` error. -/
theorem plic_mmio_decode_correct (ext : ExtCalls) (vm : VM) (g : Gprs)
    (fault_addr falut_pc inst0 i : Nat)
    (hwin : vm.plic_base ≤ fault_addr ∧ fault_addr < vm.plic_base + 0x4000000)
    (hfetch : (if inst0 = 0 then ext.fetch falut_pc else HyperResult.ok inst0)
      = HyperResult.ok i)
    (hlen : rvdec_instruction_length (i % 2 ^ 16) = 2
      ∨ rvdec_instruction_length (i % 2 ^ 16) = 4) :
    (∀ rs2 : Fin 32,
      ext.decode (if rvdec_instruction_length (i % 2 ^ 16) = 2 then i % 2 ^ 16 else i)
          = some (DecodedInst.Sw rs2) →
      (vm.run_step ext (VmExitInfo.PageFault fault_addr falut_pc inst0
          PrivilegeLevel.Supervisor) g).panicked = false ∧
      (vm.run_step ext (VmExitInfo.PageFault fault_addr falut_pc inst0
          PrivilegeLevel.Supervisor) g).vm.plic_mem fault_addr
        = Gprs.reg g rs2.val % 2 ^ 32 ∧
      (vm.run_step ext (VmExitInfo.PageFault fault_addr falut_pc inst0
          PrivilegeLevel.Supervisor) g).vm.advance_pc = true ∧
      (vm.run_step ext (VmExitInfo.PageFault fault_addr falut_pc inst0
          PrivilegeLevel.Supervisor) g).vm.instruction_length
        = rvdec_instruction_length (i % 2 ^ 16) ∧
      (∀ (exit2 : VmExitInfo) (g2 : Gprs),
        (((vm.run_step ext (VmExitInfo.PageFault fault_addr falut_pc inst0
            PrivilegeLevel.Supervisor) g).vm).run_step ext exit2 g2).vm.vcpu_pc
          = (vm.run_step ext (VmExitInfo.PageFault fault_addr falut_pc inst0
              PrivilegeLevel.Supervisor) g).vm.vcpu_pc
            + rvdec_instruction_length (i % 2 ^ 16))) ∧
    (∀ rd : Fin 32,
      ext.decode (if rvdec_instruction_length (i % 2 ^ 16) = 2 then i % 2 ^ 16 else i)
          = some (DecodedInst.Lw rd) →
      (vm.run_step ext (VmExitInfo.PageFault fault_addr falut_pc inst0
          PrivilegeLevel.Supervisor) g).panicked = false ∧
      (vm.run_step ext (VmExitInfo.PageFault fault_addr falut_pc inst0
          PrivilegeLevel.Supervisor) g).vm.gprs
        = Gprs.set_reg g rd.val (vm.plic_mem fault_addr) ∧
      (vm.run_step ext (VmExitInfo.PageFault fault_addr falut_pc inst0
          PrivilegeLevel.Supervisor) g).vm.advance_pc = true ∧
      (vm.run_step ext (VmExitInfo.PageFault fault_addr falut_pc inst0
          PrivilegeLevel.Supervisor) g).vm.instruction_length
        = rvdec_instruction_length (i % 2 ^ 16) ∧
      (∀ (exit2 : VmExitInfo) (g2 : Gprs),
        (((vm.run_step ext (VmExitInfo.PageFault fault_addr falut_pc inst0
            PrivilegeLevel.Supervisor) g).vm).run_step ext exit2 g2).vm.vcpu_pc
          = (vm.run_step ext (VmExitInfo.PageFault fault_addr falut_pc inst0
              PrivilegeLevel.Supervisor) g).vm.vcpu_pc
            + rvdec_instruction_length (i % 2 ^ 16))) ∧
    (ext.decode (if rvdec_instruction_length (i % 2 ^ 16) = 2 then i % 2 ^ 16 else i)
        = some DecodedInst.otherInst →
      (vm.handle_page_fault ext falut_pc inst0 fault_addr).res
        = HyperResult.err HyperError.InvalidInstruction) := by
  refine ⟨?_, ?_, ?_⟩
  · intro rs2 hdec
    have hres : vm.run_step ext (VmExitInfo.PageFault fault_addr falut_pc inst0
          PrivilegeLevel.Supervisor) g
        = ⟨{ gprs := g, advance_pc := true,
             instruction_length := rvdec_instruction_length (i % 2 ^ 16), timer := vm.timer,
             input_buffer := vm.input_buffer, plic_base := vm.plic_base,
             plic_mem := fun x =>
               if x = fault_addr then Gprs.reg g rs2.val % 2 ^ 32 else vm.plic_mem x,
             plic_claim_complete := vm.plic_claim_complete,
             vcpu_pc := if vm.advance_pc = true then vm.vcpu_pc + vm.instruction_length
               else vm.vcpu_pc,
             hvip_vseip := vm.hvip_vseip }, none, false⟩ := by
      simp only [VM.run_step, VM.handle_page_fault]
      dsimp only
      rw [if_pos hwin]
      rw [handle_plic_sw ext _ falut_pc inst0 fault_addr i rs2 hfetch hlen hdec]
      rfl
    refine ⟨by rw [hres], ?_, by rw [hres], by rw [hres], ?_⟩
    · rw [hres]
      simp
    · intro exit2 g2
      rw [hres, run_step_vcpu_pc]
      rfl
  · intro rd hdec
    have hres : vm.run_step ext (VmExitInfo.PageFault fault_addr falut_pc inst0
          PrivilegeLevel.Supervisor) g
        = ⟨{ gprs := Gprs.set_reg g rd.val (vm.plic_mem fault_addr), advance_pc := true,
             instruction_length := rvdec_instruction_length (i % 2 ^ 16), timer := vm.timer,
             input_buffer := vm.input_buffer, plic_base := vm.plic_base,
             plic_mem := vm.plic_mem,
             plic_claim_complete := vm.plic_claim_complete,
             vcpu_pc := if vm.advance_pc = true then vm.vcpu_pc + vm.instruction_length
               else vm.vcpu_pc,
             hvip_vseip := vm.hvip_vseip }, none, false⟩ := by
      simp only [VM.run_step, VM.handle_page_fault]
      dsimp only
      rw [if_pos hwin]
      rw [handle_plic_lw ext _ falut_pc inst0 fault_addr i rd hfetch hlen hdec]
      rfl
    refine ⟨by rw [hres], by rw [hres], by rw [hres], by rw [hres], ?_⟩
    intro exit2 g2
    rw [hres, run_step_vcpu_pc]
    rfl
  · intro hdec
    simp only [VM.handle_page_fault]
    rw [if_pos hwin]
    rw [handle_plic_other ext vm falut_pc inst0 fault_addr i hfetch hlen hdec]

/-- C4, witness: the spec's scenario 5 — a 4-byte `sw` with rs2 = x12
holding 3, faulting at the context-0 claim register 0xC20_0004, stores 3
into the PLIC model, schedules the PC advance and records length 4. -/
theorem plic_mmio_decode_correct_wit :
    ((VM.new 0x1000).run_step
        { ExtCalls.trivial with decode := fun _ => some (DecodedInst.Sw 12) }
        (VmExitInfo.PageFault 0xC200004 0x1000 0x00C52023 PrivilegeLevel.Supervisor)
        (fun j => if j = 12 then 3 else 0)).vm.plic_mem 0xC200004 = 3 ∧
    ((VM.new 0x1000).run_step
        { ExtCalls.trivial with decode := fun _ => some (DecodedInst.Sw 12) }
        (VmExitInfo.PageFault 0xC200004 0x1000 0x00C52023 PrivilegeLevel.Supervisor)
        (fun j => if j = 12 then 3 else 0)).vm.advance_pc = true ∧
    ((VM.new 0x1000).run_step
        { ExtCalls.trivial with decode := fun _ => some (DecodedInst.Sw 12) }
        (VmExitInfo.PageFault 0xC200004 0x1000 0x00C52023 PrivilegeLevel.Supervisor)
        (fun j => if j = 12 then 3 else 0)).vm.instruction_length = 4 := by
  have h := (plic_mmio_decode_correct
    { ExtCalls.trivial with decode := fun _ => some (DecodedInst.Sw 12) }
    (VM.new 0x1000) (fun j => if j = 12 then 3 else 0) 0xC200004 0x1000 0x00C52023 0x00C52023
    (by decide) (by decide) (by decide)).1 12 (by decide)
  exact ⟨h.2.1.trans (by decide), h.2.2.1, h.2.2.2.1.trans (by decide)⟩
